import Mathlib

/-!
Verification of the ldapom object mapper (ldapom.py) against its
natural-language specification.

The Python source is shallowly embedded: each class becomes a structure,
each method a pure function on that structure.  Remote LDAP calls are
modelled by explicit behaviour parameters (functions from call index /
arguments to results), and raised Python exceptions by `Except PyErr`.
Python's dynamically typed change lists (which may mix tuples, ints,
strings and None) are modelled by the `PyVal` universe, so that the
source's tuple-versus-list distinction is preserved exactly.
-/

namespace Ldapom

/-! ### Constants of the python-ldap library -/

/-- `ldap.MOD_ADD` -/
def MOD_ADD : Nat := 0
/-- `ldap.MOD_DELETE` -/
def MOD_DELETE : Nat := 1
/-- `ldap.MOD_REPLACE` -/
def MOD_REPLACE : Nat := 2

/-- `ldap.RES_BIND` -/
def RES_BIND : Nat := 97
/-- `ldap.RES_SEARCH_ENTRY` -/
def RES_SEARCH_ENTRY : Nat := 100
/-- `ldap.RES_MODIFY` -/
def RES_MODIFY : Nat := 103
/-- `ldap.RES_ADD` -/
def RES_ADD : Nat := 105
/-- `ldap.RES_DELETE` -/
def RES_DELETE : Nat := 107

/-- Exceptions that the embedded code can raise.  `serverDown` is
`ldap.SERVER_DOWN`, `invalidCredentials` is `ldap.INVALID_CREDENTIALS`,
`ldapError` is the `ldap.LDAPError("Wrong result type")` raised on an
unexpected result code, `attributeError` and `keyError` are the Python
`AttributeError` and `KeyError` exceptions. -/
inductive PyErr
  | serverDown
  | invalidCredentials
  | noSuchObject
  | ldapError
  | attributeError
  | keyError
  deriving DecidableEq, Repr

/-- A dynamically-typed Python value as it occurs in ldapom change lists:
an int (a MOD_* code), a string, `None`, or a 3-tuple of such values.
The 3-tuple is the shape `(mod_op, attribute_name, value_or_None)` built
by `LdapAttribute`. -/
inductive PyVal
  | int (n : Nat)
  | str (s : String)
  | pynone
  | tup3 (a b c : PyVal)
  deriving DecidableEq, Repr

/-- The value returned by `LdapAttribute.get_change_list`: the source
returns a bare Python *tuple* on one branch and a *list* of tuples on the
others, and the distinction matters to the caller (`list.extend` iterates
over either). -/
inductive PyRet
  | tuple3 (a b c : PyVal)
  | list (xs : List PyVal)
  deriving DecidableEq, Repr

/-- Iterating over the value returned by `get_change_list`, as
`change_list.extend(...)` does in `LdapNode.save`: iterating a tuple
yields its components, iterating a list yields its elements. -/
def pyretElems : PyRet → List PyVal
  | .tuple3 a b c => [a, b, c]
  | .list xs => xs

/-- A Python argument that is either a single string or a list of strings
(the source branches on `type(value) == list`). -/
inductive PyStrOrList
  | s (v : String)
  | l (vs : List String)
  deriving DecidableEq, Repr

/-- `self._values = value if type(value) == list else [str(value)]` -/
def toValues : PyStrOrList → List String
  | .s v => [v]
  | .l vs => vs

/-! ### class LdapAttribute -/

/-- `LdapAttribute`: attribute name, the `_replace_all` flag, the
`_added` list of incremental MOD_ADD tuples, and the `_values` list. -/
structure LdapAttribute where
  name : String
  replace_all : Bool
  added : List PyVal
  values : List String
  deriving DecidableEq, Repr

/-- `LdapAttribute.append`: add the value and record an incremental
`(MOD_ADD, name, value)` instruction unless the value is already
present, in which case do nothing. -/
def LdapAttribute.append (a : LdapAttribute) (value : String) : LdapAttribute :=
  if value ∈ a.values then a
  else { a with
    values := a.values ++ [value],
    added := a.added ++ [.tup3 (.int MOD_ADD) (.str a.name) (.str value)] }

/-- `LdapAttribute.__init__`: with `add=True` every given value is pushed
through `append` (starting from an empty value list); with `add=False`
the values are stored as loaded from the server, with no dirty state. -/
def LdapAttribute.init (name : String) (value : PyStrOrList) (add : Bool) :
    LdapAttribute :=
  if add then
    match value with
    | .l vs => vs.foldl (fun a v => a.append v) ⟨name, false, [], []⟩
    | .s v => LdapAttribute.append ⟨name, false, [], []⟩ v
  else ⟨name, false, [], toValues value⟩

/-- `LdapAttribute.set_value`: replace all values and set the
`_replace_all` flag. -/
def LdapAttribute.set_value (a : LdapAttribute) (value : PyStrOrList) :
    LdapAttribute :=
  { a with values := toValues value, replace_all := true }

/-- `LdapAttribute.get_change_list`: if `_replace_all` is set, an empty
value list yields the bare tuple `(MOD_DELETE, name, None)` (note: not a
list!), a non-empty one yields a list of one MOD_REPLACE tuple for the
first value followed by MOD_ADD tuples for the rest; otherwise the
accumulated `_added` list. -/
def LdapAttribute.get_change_list (a : LdapAttribute) : PyRet :=
  if a.replace_all then
    if a.values.length = 0 then
      .tuple3 (.int MOD_DELETE) (.str a.name) .pynone
    else
      .list ((a.values.take 1).map (fun x => .tup3 (.int MOD_REPLACE) (.str a.name) (.str x))
        ++ (a.values.drop 1).map (fun x => .tup3 (.int MOD_ADD) (.str a.name) (.str x)))
  else .list a.added

/-- `LdapAttribute.discard_change_list`: reset both dirty channels,
keeping the values. -/
def LdapAttribute.discard_change_list (a : LdapAttribute) : LdapAttribute :=
  { a with added := [], replace_all := false }

/-! ### class LdapConnection and the retry decorators

The underlying python-ldap session is modelled by behaviour parameters:
for each raw protocol call (`add_s`, `modify_s`, `delete_s`,
`simple_bind_s`, the search-result loop), a function from the call's
arguments and a global call counter to its outcome.  `ConnState` counts
the raw calls issued and the reconnects performed, which is exactly the
instrumentation the retry claims are about. -/

/-- Observable connection activity: how many raw protocol calls have
been issued and how many reconnects (`_connect`) have been performed. -/
structure ConnState where
  rawCalls : Nat
  connects : Nat
  deriving DecidableEq, Repr

/-- Issue one raw protocol call whose outcome is given by the behaviour
`beh` at the current call index. -/
def callRaw (beh : Nat → Except PyErr Nat) (s : ConnState) :
    ConnState × Except PyErr Nat :=
  ({ s with rawCalls := s.rawCalls + 1 }, beh s.rawCalls)

/-- `LdapConnection._connect`: re-initialize the transport and re-bind.
The outcome of the n-th reconnect is given by the behaviour `cbeh`
(binding can itself fail). -/
def doConnect (cbeh : Nat → Except PyErr Unit) (s : ConnState) :
    ConnState × Except PyErr Unit :=
  ({ s with connects := s.connects + 1 }, cbeh s.connects)

/-- `_retry_on_disconnect`: run `func`; on `ldap.SERVER_DOWN` call
`self._connect()` and run `func` once more, propagating whatever the
second run produces; any other exception (and a failure of the reconnect
itself) propagates immediately. -/
def retry_on_disconnect {σ α : Type} (connect : σ → σ × Except PyErr Unit)
    (func : σ → σ × Except PyErr α) (s : σ) : σ × Except PyErr α :=
  match func s with
  | (s1, .ok a) => (s1, .ok a)
  | (s1, .error .serverDown) =>
    match connect s1 with
    | (s2, .ok _) => func s2
    | (s2, .error e) => (s2, .error e)
  | (s1, .error e) => (s1, .error e)

/-- `if res_type != EXPECTED: raise ldap.LDAPError("Wrong result type")` -/
def check_result (r : Except PyErr Nat) (expected : Nat) : Except PyErr Unit :=
  match r with
  | .ok t => if t = expected then .ok () else .error .ldapError
  | .error e => .error e

/-- `LdapConnection.add` (decorated with `@_retry_on_disconnect`):
`self._lo.add_s(dn, attrs)` and check for `RES_ADD`. -/
def LdapConnection.add (add_s : String → List (String × List String) → Nat → Except PyErr Nat)
    (cbeh : Nat → Except PyErr Unit) (dn : String)
    (attrs : List (String × List String)) (s : ConnState) :
    ConnState × Except PyErr Unit :=
  retry_on_disconnect (doConnect cbeh)
    (fun st =>
      let p := callRaw (add_s dn attrs) st
      (p.1, check_result p.2 RES_ADD)) s

/-- `LdapConnection.modify` (decorated with `@_retry_on_disconnect`):
`self._lo.modify_s(dn, change)` and check for `RES_MODIFY`. -/
def LdapConnection.modify (modify_s : String → List PyVal → Nat → Except PyErr Nat)
    (cbeh : Nat → Except PyErr Unit) (dn : String)
    (change : List PyVal) (s : ConnState) :
    ConnState × Except PyErr Unit :=
  retry_on_disconnect (doConnect cbeh)
    (fun st =>
      let p := callRaw (modify_s dn change) st
      (p.1, check_result p.2 RES_MODIFY)) s

/-- `LdapConnection.delete` (decorated with `@_retry_on_disconnect`):
`self._lo.delete_s(dn)` and check for `RES_DELETE`. -/
def LdapConnection.delete (delete_s : String → Nat → Except PyErr Nat)
    (cbeh : Nat → Except PyErr Unit) (dn : String) (s : ConnState) :
    ConnState × Except PyErr Unit :=
  retry_on_disconnect (doConnect cbeh)
    (fun st =>
      let p := callRaw (delete_s dn) st
      (p.1, check_result p.2 RES_DELETE)) s

/-- `LdapConnection.authenticate`: bind on a separate transient session
(no decorator in the source — note the absence of any retry or
reconnect).  `INVALID_CREDENTIALS` becomes `False`; everything else
propagates.  The transient bind is counted in `rawCalls` so that the
absence of retries is observable. -/
def LdapConnection.authenticate (simple_bind_s : String → String → Nat → Except PyErr Nat)
    (dn : String) (password : String) (s : ConnState) :
    ConnState × Except PyErr Bool :=
  let p := callRaw (simple_bind_s dn password) s
  match p.2 with
  | .ok t => (p.1, .ok (t == RES_BIND))
  | .error .invalidCredentials => (p.1, .ok false)
  | .error e => (p.1, .error e)

/-! ### The generator-based retry wrapper and search -/

/-- The caller-observable behaviour of one run of a Python generator: the
values it yields, then either a normal `StopIteration` end (`.ok ()`) or
a raised exception (`.error e`). -/
structure GenRun (α : Type) where
  vals : List α
  term : Except PyErr Unit
  deriving Repr

/-- `_retry_on_disconnect_gen`: only the creation of the inner generator
and its *first* `next()` are inside the `try` block.  A `SERVER_DOWN`
raised there triggers `self._connect()` and a fresh inner generator,
consumed from its beginning; a `SERVER_DOWN` raised by any later
`next()` (in the unguarded `while 1` loop) propagates to the caller. -/
def retry_on_disconnect_gen {σ α : Type} (connect : σ → σ × Except PyErr Unit)
    (func : σ → σ × GenRun α) (s : σ) : σ × GenRun α :=
  match func s with
  | (s1, ⟨[], .error .serverDown⟩) =>
    match connect s1 with
    | (s2, .ok _) => func s2
    | (s2, .error e) => (s2, ⟨[], .error e⟩)
  | (s1, r) => (s1, r)

/-- One outcome of `self._lo.result(result_id, timeout)` inside the
`query` loop: a search entry (yielded), a result of some other type (the
loop continues without yielding), the empty result list (break), or a
raised exception. -/
inductive RawStep (α : Type)
  | entry (a : α)
  | otherType
  | finished
  | raiseErr (e : PyErr)
  deriving DecidableEq, Repr

/-- The `while 1` loop of `LdapConnection.query`, run against a script of
`result()` outcomes: collect yielded entries until a break or an
exception. -/
def run_query_loop {α : Type} : List (RawStep α) → GenRun α
  | [] => ⟨[], .ok ()⟩
  | .finished :: _ => ⟨[], .ok ()⟩
  | .raiseErr e :: _ => ⟨[], .error e⟩
  | .otherType :: rest => run_query_loop rest
  | .entry a :: rest =>
    let r := run_query_loop rest
    ⟨a :: r.vals, r.term⟩

/-- `LdapConnection.query` (decorated with `@_retry_on_disconnect_gen`):
the k-th construction of the inner generator runs against
`search_results k`; each construction counts as one raw call. -/
def LdapConnection.query {α : Type} (search_results : Nat → List (RawStep α))
    (cbeh : Nat → Except PyErr Unit) (s : ConnState) : ConnState × GenRun α :=
  retry_on_disconnect_gen (doConnect cbeh)
    (fun st => ({ st with rawCalls := st.rawCalls + 1 },
                run_query_loop (search_results st.rawCalls))) s

/-! ### class LdapNode

The attribute dictionary `self._attr` is modelled as an association list
(`None` = not yet fetched).  The lazy fetch that `__getattr__`,
`__setattr__` and `__delattr__` perform through `self._conn.query` is
modelled by a behaviour parameter `fetchR`: the raw attribute map the
base-scope search would return for this dn (or the exception it would
raise).  Network calls made by `save` are recorded in the outcome so
that "zero network calls" claims are directly expressible. -/

/-- Look up a key in the attribute dictionary. -/
def lookup_attr (m : List (String × LdapAttribute)) (key : String) :
    Option LdapAttribute :=
  match m with
  | [] => none
  | p :: rest => if p.1 = key then some p.2 else lookup_attr rest key

/-- `self._attr[name].set_value(value)`-style in-place update of one
dictionary entry. -/
def update_attr (m : List (String × LdapAttribute)) (key : String)
    (f : LdapAttribute → LdapAttribute) : List (String × LdapAttribute) :=
  m.map (fun p => if p.1 = key then (p.1, f p.2) else p)

/-- `del self._attr[name]`. -/
def remove_attr (m : List (String × LdapAttribute)) (key : String) :
    List (String × LdapAttribute) :=
  m.filter (fun p => p.1 != key)

/-- `LdapNode`: dn, the `_valid` flag, the `_to_delete` list of pending
attribute deletions, the `_new` flag, and the nullable `_attr`
dictionary. -/
structure LdapNode where
  dn : String
  valid : Bool
  to_delete : List String
  new : Bool
  attr : Option (List (String × LdapAttribute))
  deriving DecidableEq, Repr

/-- `LdapNode.__init__` (reached through `get_ldap_node` /
`new_ldap_node`): a new node starts with an empty attribute dictionary,
a non-new node with an unfetched (`None`) one. -/
def LdapNode.init (dn : String) (new : Bool) : LdapNode :=
  ⟨dn, true, [], new, if new then some [] else none⟩

/-- `dict([(x[0], LdapAttribute(x[0], x[1])) for x in attr.items()])`:
wrap the raw fetched attributes into loaded `LdapAttribute` objects. -/
def wrap_attrs (raw : List (String × List String)) :
    List (String × LdapAttribute) :=
  raw.map (fun x => (x.1, LdapAttribute.init x.1 (.l x.2) false))

/-- The `if self._attr == None: query ...` prologue shared by
`__getattr__`, `__setattr__` and `__delattr__`: fetch and wrap the
attributes if the dictionary is still unset. -/
def ensure_attr (fetchR : Except PyErr (List (String × List String)))
    (n : LdapNode) : Except PyErr LdapNode :=
  match n.attr with
  | some _ => .ok n
  | none =>
    match fetchR with
    | .ok raw => .ok { n with attr := some (wrap_attrs raw) }
    | .error e => .error e

/-- What `__getattr__` returns: an attribute object, or the boolean of
an `is_<classname>` objectClass membership test. -/
inductive GetAttrResult
  | attr (a : LdapAttribute)
  | isClass (b : Bool)
  deriving Repr

/-- `LdapNode.__getattr__`: lazy fetch, then either the `is_*`
objectClass test, the attribute itself, or `AttributeError`.  (The
result also carries the possibly-updated node, since the lazy fetch
mutates `self._attr`.) -/
def LdapNode.getattr (fetchR : Except PyErr (List (String × List String)))
    (n : LdapNode) (name : String) :
    Except PyErr (LdapNode × GetAttrResult) :=
  match ensure_attr fetchR n with
  | .error e => .error e
  | .ok n1 =>
    let m := n1.attr.getD []
    if name.startsWith "is_" then
      match lookup_attr m "objectClass" with
      | some oc => .ok (n1, .isClass (oc.values.contains (name.drop 3)))
      | none => .error .keyError
    else
      match lookup_attr m name with
      | some a => .ok (n1, .attr a)
      | none => .error .attributeError

/-- `LdapNode.__setattr__` for public (ldap attribute) names: lazy
fetch, then `set_value` on an existing tracker or a fresh `add=True`
tracker.  (The private-underscore branch, which stores plain Python
instance attributes, is outside the embedded state and not modelled.) -/
def LdapNode.setattr (fetchR : Except PyErr (List (String × List String)))
    (n : LdapNode) (name : String) (value : PyStrOrList) :
    Except PyErr LdapNode :=
  match ensure_attr fetchR n with
  | .error e => .error e
  | .ok n1 =>
    let m := n1.attr.getD []
    match lookup_attr m name with
    | some _ =>
      .ok { n1 with attr := some (update_attr m name (fun a => a.set_value value)) }
    | none =>
      .ok { n1 with attr := some (m ++ [(name, LdapAttribute.init name value true)]) }

/-- `LdapNode.__delattr__`: lazy fetch, then `del self._attr[name]`
(KeyError if absent) and `self._to_delete.append(name)`. -/
def LdapNode.delattr (fetchR : Except PyErr (List (String × List String)))
    (n : LdapNode) (name : String) : Except PyErr LdapNode :=
  match ensure_attr fetchR n with
  | .error e => .error e
  | .ok n1 =>
    let m := n1.attr.getD []
    match lookup_attr m name with
    | some _ =>
      .ok { n1 with attr := some (remove_attr m name),
                    to_delete := n1.to_delete ++ [name] }
    | none => .error .keyError

/-- A network call issued by `LdapNode.save` or `LdapNode.delete`
through the connection. -/
inductive NetCall
  | addCall (dn : String) (attrs : List (String × List String))
  | modifyCall (dn : String) (change : List PyVal)
  | deleteCall (dn : String)
  deriving DecidableEq, Repr

/-- The combined modify list built by the non-new branch of
`LdapNode.save`: one `(MOD_DELETE, name, None)` tuple per pending
deletion, then `change_list.extend(attr.get_change_list())` over the
attribute dictionary (note: `extend` flattens a bare tuple return into
its components). -/
def modify_change_list (to_delete : List String)
    (m : List (String × LdapAttribute)) : List PyVal :=
  m.foldl (fun acc p => acc ++ pyretElems p.2.get_change_list)
    (to_delete.map (fun x => .tup3 (.int MOD_DELETE) (.str x) .pynone))

/-- The outcome of a `save`: the raised exception if any, the resulting
node state, and the network calls issued. -/
structure SaveOutcome where
  result : Except PyErr Unit
  node : LdapNode
  calls : List NetCall
  deriving Repr

/-- `LdapNode.save`: on a `None` attribute dictionary both branches call
`self._attr.values()` and raise `AttributeError` before any network
call.  A new node issues `add` with every tracker's (name, values); a
non-new node issues `modify` with the combined change list unless that
list is empty (early return, no network call).  Only after a successful
call are the `_new` flag, `_to_delete` and every tracker's dirty state
cleared; a raised exception leaves the node untouched. -/
def LdapNode.save
    (addR : String → List (String × List String) → Except PyErr Unit)
    (modifyR : String → List PyVal → Except PyErr Unit)
    (n : LdapNode) : SaveOutcome :=
  match n.attr with
  | none => ⟨.error .attributeError, n, []⟩
  | some m =>
    if n.new then
      let change_list := m.map (fun p => (p.2.name, p.2.values))
      match addR n.dn change_list with
      | .ok _ =>
        ⟨.ok (),
         { n with
             new := false
             to_delete := []
             attr := some (m.map (fun p => (p.1, p.2.discard_change_list))) },
         [.addCall n.dn change_list]⟩
      | .error e => ⟨.error e, n, [.addCall n.dn change_list]⟩
    else
      let change_list := modify_change_list n.to_delete m
      if change_list.length = 0 then ⟨.ok (), n, []⟩
      else
        match modifyR n.dn change_list with
        | .ok _ =>
          ⟨.ok (),
           { n with
               new := false
               to_delete := []
               attr := some (m.map (fun p => (p.1, p.2.discard_change_list))) },
           [.modifyCall n.dn change_list]⟩
        | .error e => ⟨.error e, n, [.modifyCall n.dn change_list]⟩

/-- `LdapNode.delete`: issue the remote delete; on success set
`self._valid = False`.  (No other method of the class ever reads
`_valid`.) -/
def LdapNode.delete (deleteR : String → Except PyErr Unit) (n : LdapNode) :
    Except PyErr LdapNode :=
  match deleteR n.dn with
  | .ok _ => .ok { n with valid := false }
  | .error e => .error e

/-! ### Concrete behaviours and nodes used in witnesses and
counterexamples -/

/-- A reconnect that always succeeds. -/
def connOkBeh : Nat → Except PyErr Unit := fun _ => .ok ()

/-- An `add_s` that always reports server-down. -/
def addDownBeh : String → List (String × List String) → Nat → Except PyErr Nat :=
  fun _ _ _ => .error .serverDown

/-- A `modify_s` that always reports server-down. -/
def modifyDownBeh : String → List PyVal → Nat → Except PyErr Nat :=
  fun _ _ _ => .error .serverDown

/-- A `delete_s` that always reports server-down. -/
def deleteDownBeh : String → Nat → Except PyErr Nat :=
  fun _ _ => .error .serverDown

/-- A `simple_bind_s` that reports server-down on the first call and
would succeed on any retry. -/
def bindDownOnceBeh : String → String → Nat → Except PyErr Nat :=
  fun _ _ i => if i = 0 then .error .serverDown else .ok RES_BIND

/-- A search whose first run yields one entry and then hits server-down
mid-stream. -/
def midStreamScript : Nat → List (RawStep String) :=
  fun i => if i = 0 then [.entry "cn=jack,dc=example,dc=com", .raiseErr .serverDown]
           else [.entry "cn=jack,dc=example,dc=com", .finished]

/-- A search whose first run hits server-down before yielding anything
and whose restarted run yields one entry and finishes. -/
def restartScript : Nat → List (RawStep String) :=
  fun i => if i = 0 then [.raiseErr .serverDown]
           else [.entry "cn=jack,dc=example,dc=com", .finished]

/-- A connection `add` that always succeeds. -/
def addOkR : String → List (String × List String) → Except PyErr Unit :=
  fun _ _ => .ok ()

/-- A connection `modify` that always succeeds. -/
def modifyOkR : String → List PyVal → Except PyErr Unit := fun _ _ => .ok ()

/-- A connection `modify` that always fails with server-down. -/
def modifyFailR : String → List PyVal → Except PyErr Unit :=
  fun _ _ => .error .serverDown

/-- A loaded single-valued `sn` attribute. -/
def jackAttrs : List (String × LdapAttribute) :=
  [("sn", ⟨"sn", false, [], ["Jack"]⟩)]

/-- A fetched, clean, non-new node. -/
def cleanNode : LdapNode :=
  ⟨"cn=jack,dc=example,dc=com", true, [], false, some jackAttrs⟩

/-- The same node after a successful `delete()`. -/
def deletedJack : LdapNode :=
  ⟨"cn=jack,dc=example,dc=com", false, [], false, some jackAttrs⟩

/-- A fetched non-new node with one pending incremental add on `sn`. -/
def dirtyAttrs : List (String × LdapAttribute) :=
  [("sn", ⟨"sn", false, [.tup3 (.int MOD_ADD) (.str "sn") (.str "Jackson")],
    ["Jack", "Jackson"]⟩)]

/-- A node carrying `dirtyAttrs`. -/
def dirtyNode : LdapNode :=
  ⟨"cn=jack,dc=example,dc=com", true, [], false, some dirtyAttrs⟩

/-- A loaded single-valued `loginShell` attribute dictionary. -/
def shellAttrs : List (String × LdapAttribute) :=
  [("loginShell", ⟨"loginShell", false, [], ["/bin/bash"]⟩)]

/-- A fetched non-new node holding `shellAttrs`. -/
def shellNode : LdapNode :=
  ⟨"cn=jack,dc=example,dc=com", true, [], false, some shellAttrs⟩

/-- `shellNode` after `del node.loginShell`. -/
def shellDelNode : LdapNode :=
  ⟨"cn=jack,dc=example,dc=com", true, ["loginShell"], false, some []⟩

/-- `shellDelNode` after `node.loginShell = "/bin/zsh"`. -/
def shellSetNode : LdapNode :=
  ⟨"cn=jack,dc=example,dc=com", true, ["loginShell"], false,
   some [("loginShell", LdapAttribute.init "loginShell" (.s "/bin/zsh") true)]⟩

/-! ### Helper lemmas -/

/-- After `del self._attr[name]` the name is no longer found. -/
theorem lookup_attr_remove (m : List (String × LdapAttribute)) (key : String) :
    lookup_attr (remove_attr m key) key = none := by
  induction m with
  | nil => rfl
  | cons p rest ih =>
    by_cases h : p.1 = key
    · rw [remove_attr, List.filter_cons_of_neg] at *
      · exact ih
      · simp [h]
    · rw [remove_attr, List.filter_cons_of_pos] at *
      · simp only [lookup_attr, h, if_false]
        exact ih
      · simp [h]

/-- Appending a fresh entry at the end of the dictionary makes it
found, provided the key was absent before. -/
theorem lookup_attr_append_last (m : List (String × LdapAttribute))
    (key : String) (a : LdapAttribute) (h : lookup_attr m key = none) :
    lookup_attr (m ++ [(key, a)]) key = some a := by
  induction m with
  | nil => simp [lookup_attr]
  | cons p rest ih =>
    by_cases hp : p.1 = key
    · simp [lookup_attr, hp] at h
    · simp only [lookup_attr, hp] at h
      simpa [lookup_attr, hp] using ih h

/-- The one-shot retry pattern shared by `add`, `modify` and `delete`:
a server-down on the first raw call costs exactly one reconnect and one
re-issued raw call, whose checked outcome is returned as-is. -/
theorem retry_callRaw_down (beh : Nat → Except PyErr Nat) (expected : Nat)
    (cbeh : Nat → Except PyErr Unit) (s : ConnState)
    (h : beh s.rawCalls = .error .serverDown)
    (hconn : cbeh s.connects = .ok ()) :
    retry_on_disconnect (doConnect cbeh)
      (fun st =>
        let p := callRaw beh st
        (p.1, check_result p.2 expected)) s
      = (⟨s.rawCalls + 2, s.connects + 1⟩,
         check_result (beh (s.rawCalls + 1)) expected) := by
  simp [retry_on_disconnect, callRaw, doConnect, check_result, h, hconn]

/-! ### Claim C1 -/

/-- Claim C1 (confirmed): for every attribute tracker whose full-replace
flag is set and whose value list is non-empty, `get_change_list` returns
exactly one MOD_REPLACE instruction carrying the first value in
iteration order, followed by one MOD_ADD instruction per remaining
value, and nothing else. -/
theorem C1_get_change_list_full_replace (a : LdapAttribute) (v : String)
    (vs : List String) (hrep : a.replace_all = true)
    (hv : a.values = v :: vs) :
    a.get_change_list
      = .list (.tup3 (.int MOD_REPLACE) (.str a.name) (.str v)
          :: vs.map (fun x => .tup3 (.int MOD_ADD) (.str a.name) (.str x))) := by
  simp [LdapAttribute.get_change_list, hrep, hv]

/-- Witness for C1: a tracker with values a, b, c and the full-replace
flag set yields replace a, add b, add c. -/
theorem C1_witness :
    ((⟨"cn", true, [], ["a", "b", "c"]⟩ : LdapAttribute).replace_all = true)
    ∧ ((⟨"cn", true, [], ["a", "b", "c"]⟩ : LdapAttribute).values = "a" :: ["b", "c"])
    ∧ (⟨"cn", true, [], ["a", "b", "c"]⟩ : LdapAttribute).get_change_list
        = .list [.tup3 (.int MOD_REPLACE) (.str "cn") (.str "a"),
                 .tup3 (.int MOD_ADD) (.str "cn") (.str "b"),
                 .tup3 (.int MOD_ADD) (.str "cn") (.str "c")] :=
  ⟨rfl, rfl, C1_get_change_list_full_replace _ "a" ["b", "c"] rfl rfl⟩

/-! ### Claim C2 -/

/-- Claim C2 (code bug): with the full-replace flag set and an empty
value list, `get_change_list` returns the bare tuple
`(MOD_DELETE, name, None)` instead of a one-element list, so the
`change_list.extend(...)` in `LdapNode.save` flattens it and appends its
three components (the int MOD_DELETE, the name string, None) as three
separate malformed elements to the combined modify list, not one
delete-attribute instruction. -/
theorem C2_bare_tuple_flattened :
    (⟨"loginShell", true, [], []⟩ : LdapAttribute).get_change_list
      = .tuple3 (.int MOD_DELETE) (.str "loginShell") .pynone
    ∧ (LdapNode.save addOkR modifyOkR
        ⟨"cn=jack,dc=example,dc=com", true, [], false,
         some [("loginShell", ⟨"loginShell", true, [], []⟩)]⟩).calls
      = [.modifyCall "cn=jack,dc=example,dc=com"
          [.int MOD_DELETE, .str "loginShell", .pynone]] :=
  ⟨rfl, rfl⟩

/-! ### Claim C8 -/

/-- Claim C8 (counterexample): on a tracker already loaded with the
value, the claimed property fails: appending the value twice leaves one
stored copy but records *zero* incremental add instructions (and an
empty change list), not exactly one. -/
theorem C8_counterexample :
    (((LdapAttribute.init "cn" (.l ["v"]) false).append "v").append "v").values = ["v"]
    ∧ (((LdapAttribute.init "cn" (.l ["v"]) false).append "v").append "v").added = []
    ∧ (((LdapAttribute.init "cn" (.l ["v"]) false).append "v").append "v").get_change_list
        = .list [] := by
  refine ⟨rfl, rfl, rfl⟩

/-- Claim C8 (amended, proved): for every tracker whose value list does
not yet contain v, appending v twice stores exactly one copy of v,
appends exactly one incremental MOD_ADD instruction for v, and the
second append is a silent no-op. -/
theorem C8_append_twice_fresh (a : LdapAttribute) (v : String)
    (h : v ∉ a.values) :
    (a.append v).append v = a.append v
    ∧ (a.append v).values = a.values ++ [v]
    ∧ (a.append v).added
        = a.added ++ [.tup3 (.int MOD_ADD) (.str a.name) (.str v)]
    ∧ ((a.append v).append v).values.count v = 1 := by
  have hc : a.values.count v = 0 := List.count_eq_zero_of_not_mem h
  refine ⟨?_, ?_, ?_, ?_⟩ <;>
    simp [LdapAttribute.append, h, List.count_append, hc]

/-- Witness for C8 (amended): a tracker with no values, appended twice
with "jack". -/
theorem C8_witness :
    "jack" ∉ (⟨"memberUid", false, [], []⟩ : LdapAttribute).values
    ∧ (((⟨"memberUid", false, [], []⟩ : LdapAttribute).append "jack").append "jack"
        = (⟨"memberUid", false, [], []⟩ : LdapAttribute).append "jack"
      ∧ ((⟨"memberUid", false, [], []⟩ : LdapAttribute).append "jack").values = ["jack"]
      ∧ ((⟨"memberUid", false, [], []⟩ : LdapAttribute).append "jack").added
          = [.tup3 (.int MOD_ADD) (.str "memberUid") (.str "jack")]
      ∧ (((⟨"memberUid", false, [], []⟩ : LdapAttribute).append "jack").append "jack").values.count "jack"
          = 1) :=
  ⟨by decide, C8_append_twice_fresh _ "jack" (by decide)⟩

/-! ### Claim C4 -/

/-- Claim C4 (counterexample): `authenticate` is not wrapped by the
retry contract.  With a bind that reports server-down on its first call
and would succeed on a retry, `authenticate` propagates the server-down
error after a single raw call and performs zero reconnects — under the
claimed contract it would have reconnected once and returned true. -/
theorem C4_counterexample :
    LdapConnection.authenticate bindDownOnceBeh
      "cn=jack,dc=example,dc=com" "secret" ⟨0, 0⟩
      = (⟨1, 0⟩, .error .serverDown) := rfl

/-- Claim C4 (amended, proved): add, modify and delete are wrapped by
the one-shot retry contract — a server-down on the first raw call
triggers exactly one reconnect and exactly one re-issued call whose
(result-code-checked) outcome, success or failure, is returned with no
further retry; `authenticate` is not wrapped — a server-down during its
bind propagates immediately, with no reconnect and no retry. -/
theorem C4_retry_contract
    (add_s : String → List (String × List String) → Nat → Except PyErr Nat)
    (modify_s : String → List PyVal → Nat → Except PyErr Nat)
    (delete_s : String → Nat → Except PyErr Nat)
    (simple_bind_s : String → String → Nat → Except PyErr Nat)
    (cbeh : Nat → Except PyErr Unit) (dn password : String)
    (attrs : List (String × List String)) (change : List PyVal)
    (s : ConnState)
    (hconn : cbeh s.connects = .ok ())
    (hadd : add_s dn attrs s.rawCalls = .error .serverDown)
    (hmod : modify_s dn change s.rawCalls = .error .serverDown)
    (hdel : delete_s dn s.rawCalls = .error .serverDown)
    (hbind : simple_bind_s dn password s.rawCalls = .error .serverDown) :
    LdapConnection.add add_s cbeh dn attrs s
      = (⟨s.rawCalls + 2, s.connects + 1⟩,
         check_result (add_s dn attrs (s.rawCalls + 1)) RES_ADD)
    ∧ LdapConnection.modify modify_s cbeh dn change s
      = (⟨s.rawCalls + 2, s.connects + 1⟩,
         check_result (modify_s dn change (s.rawCalls + 1)) RES_MODIFY)
    ∧ LdapConnection.delete delete_s cbeh dn s
      = (⟨s.rawCalls + 2, s.connects + 1⟩,
         check_result (delete_s dn (s.rawCalls + 1)) RES_DELETE)
    ∧ LdapConnection.authenticate simple_bind_s dn password s
      = (⟨s.rawCalls + 1, s.connects⟩, .error .serverDown) := by
  refine ⟨?_, ?_, ?_, ?_⟩
  · exact retry_callRaw_down (add_s dn attrs) RES_ADD cbeh s hadd hconn
  · exact retry_callRaw_down (modify_s dn change) RES_MODIFY cbeh s hmod hconn
  · exact retry_callRaw_down (delete_s dn) RES_DELETE cbeh s hdel hconn
  · simp [LdapConnection.authenticate, callRaw, hbind]

/-- Witness for C4 (amended): behaviours that always report server-down
exercise every conjunct; the retried add/modify/delete fail again and
that second failure is what the caller sees (exactly one reconnect
each), while authenticate fails with no reconnect at all. -/
theorem C4_witness :
    connOkBeh 0 = .ok ()
    ∧ addDownBeh "cn=jack,dc=example,dc=com" [] 0 = .error .serverDown
    ∧ modifyDownBeh "cn=jack,dc=example,dc=com" [] 0 = .error .serverDown
    ∧ deleteDownBeh "cn=jack,dc=example,dc=com" 0 = .error .serverDown
    ∧ bindDownOnceBeh "cn=jack,dc=example,dc=com" "secret" 0 = .error .serverDown
    ∧ (LdapConnection.add addDownBeh connOkBeh "cn=jack,dc=example,dc=com" [] ⟨0, 0⟩
        = (⟨2, 1⟩, .error .serverDown)
      ∧ LdapConnection.modify modifyDownBeh connOkBeh "cn=jack,dc=example,dc=com" [] ⟨0, 0⟩
        = (⟨2, 1⟩, .error .serverDown)
      ∧ LdapConnection.delete deleteDownBeh connOkBeh "cn=jack,dc=example,dc=com" ⟨0, 0⟩
        = (⟨2, 1⟩, .error .serverDown)
      ∧ LdapConnection.authenticate bindDownOnceBeh "cn=jack,dc=example,dc=com" "secret" ⟨0, 0⟩
        = (⟨1, 0⟩, .error .serverDown)) :=
  ⟨rfl, rfl, rfl, rfl, rfl,
   C4_retry_contract addDownBeh modifyDownBeh deleteDownBeh bindDownOnceBeh
     connOkBeh "cn=jack,dc=example,dc=com" "secret" [] [] ⟨0, 0⟩
     rfl rfl rfl rfl rfl⟩

/-! ### Claim C5 -/

/-- Claim C5 (counterexample): a server-down reported while the caller
is consuming results *after* the first one is not handled: the caller
observes the error, no reconnect happens (connects stays 0) and the
search is not restarted (one inner generator construction only). -/
theorem C5_counterexample :
    LdapConnection.query midStreamScript connOkBeh ⟨0, 0⟩
      = (⟨1, 0⟩, ⟨["cn=jack,dc=example,dc=com"], .error .serverDown⟩) := rfl

/-- Claim C5 (amended, proved): the generator-level retry applies only
to server-down raised before the first result is produced: then the
connection reconnects exactly once and the search restarts from the
beginning, the caller seeing the restarted run instead of an error.
Once a first result has been yielded, the run — any later server-down
included — is delivered to the caller as-is, with no reconnect. -/
theorem C5_query_retry_first_only {α : Type}
    (script : Nat → List (RawStep α)) (cbeh : Nat → Except PyErr Unit)
    (s : ConnState) (hconn : cbeh s.connects = .ok ()) :
    (run_query_loop (script s.rawCalls) = ⟨[], .error .serverDown⟩ →
      LdapConnection.query script cbeh s
        = (⟨s.rawCalls + 2, s.connects + 1⟩,
           run_query_loop (script (s.rawCalls + 1))))
    ∧ ∀ (v : α) (vs : List α) (t : Except PyErr Unit),
        run_query_loop (script s.rawCalls) = ⟨v :: vs, t⟩ →
        LdapConnection.query script cbeh s
          = (⟨s.rawCalls + 1, s.connects⟩, ⟨v :: vs, t⟩) := by
  constructor
  · intro h
    simp [LdapConnection.query, retry_on_disconnect_gen, doConnect, h, hconn]
  · intro v vs t h
    simp [LdapConnection.query, retry_on_disconnect_gen, h]

/-- Witness for C5 (amended): a search that hits server-down before the
first result reconnects once and delivers the restarted run; a search
that hits server-down mid-stream delivers the error unretried. -/
theorem C5_witness :
    connOkBeh 0 = .ok ()
    ∧ run_query_loop (restartScript 0) = ⟨[], .error .serverDown⟩
    ∧ run_query_loop (midStreamScript 0)
        = ⟨"cn=jack,dc=example,dc=com" :: [], .error .serverDown⟩
    ∧ LdapConnection.query restartScript connOkBeh ⟨0, 0⟩
        = (⟨2, 1⟩, ⟨["cn=jack,dc=example,dc=com"], .ok ()⟩)
    ∧ LdapConnection.query midStreamScript connOkBeh ⟨0, 0⟩
        = (⟨1, 0⟩, ⟨["cn=jack,dc=example,dc=com"], .error .serverDown⟩) := by
  refine ⟨rfl, rfl, rfl, ?_, ?_⟩
  · exact (C5_query_retry_first_only restartScript connOkBeh ⟨0, 0⟩ rfl).1 rfl
  · exact (C5_query_retry_first_only midStreamScript connOkBeh ⟨0, 0⟩ rfl).2
      "cn=jack,dc=example,dc=com" [] (.error .serverDown) rfl

/-! ### Claim C3 -/

/-- Claim C3 (confirmed): when the modify issued by save() on a non-new,
fetched entry fails, the raised error is surfaced and the node — its
pending-deletion list, its new flag and every tracker's dirty state —
is exactly as before the call, so an immediately retried save() issues
the same instruction list. -/
theorem C3_save_failure_preserves_state
    (addR : String → List (String × List String) → Except PyErr Unit)
    (modifyR modifyR2 : String → List PyVal → Except PyErr Unit)
    (n : LdapNode) (m : List (String × LdapAttribute)) (e : PyErr)
    (hnew : n.new = false) (hattr : n.attr = some m)
    (hne : modify_change_list n.to_delete m ≠ [])
    (hfail : modifyR n.dn (modify_change_list n.to_delete m) = .error e) :
    (n.save addR modifyR).node = n
    ∧ (n.save addR modifyR).result = .error e
    ∧ ((n.save addR modifyR).node.save addR modifyR2).calls
        = [.modifyCall n.dn (modify_change_list n.to_delete m)] := by
  have hlen : ¬ (modify_change_list n.to_delete m).length = 0 := by
    simpa [List.length_eq_zero] using hne
  have hsave : n.save addR modifyR
      = ⟨.error e, n, [.modifyCall n.dn (modify_change_list n.to_delete m)]⟩ := by
    simp [LdapNode.save, hattr, hnew, hlen, hfail]
  refine ⟨by rw [hsave], by rw [hsave], ?_⟩
  rw [hsave]
  cases h2 : modifyR2 n.dn (modify_change_list n.to_delete m) <;>
    simp [LdapNode.save, hattr, hnew, hlen, h2]

/-- Witness for C3: a node with one pending incremental add whose modify
fails with server-down keeps its state and a retried save issues the
identical modify list. -/
theorem C3_witness :
    dirtyNode.new = false
    ∧ dirtyNode.attr = some dirtyAttrs
    ∧ modify_change_list dirtyNode.to_delete dirtyAttrs ≠ []
    ∧ modifyFailR dirtyNode.dn (modify_change_list dirtyNode.to_delete dirtyAttrs)
        = .error .serverDown
    ∧ ((dirtyNode.save addOkR modifyFailR).node = dirtyNode
      ∧ (dirtyNode.save addOkR modifyFailR).result = .error .serverDown
      ∧ ((dirtyNode.save addOkR modifyFailR).node.save addOkR modifyOkR).calls
          = [.modifyCall dirtyNode.dn
              (modify_change_list dirtyNode.to_delete dirtyAttrs)]) :=
  ⟨rfl, rfl, by decide, rfl,
   C3_save_failure_preserves_state addOkR modifyFailR modifyOkR dirtyNode
     dirtyAttrs .serverDown rfl rfl (by decide) rfl⟩

/-! ### Claim C6 -/

/-- Claim C6 (counterexample): after a successful delete() the node is
marked invalid, yet a subsequent attribute read succeeds — it returns
the attribute instead of failing with an invalid-entry error — and a
subsequent attribute write succeeds as well. -/
theorem C6_counterexample :
    LdapNode.delete (fun _ => .ok ()) cleanNode = .ok deletedJack
    ∧ LdapNode.getattr (.ok []) deletedJack "sn"
        = .ok (deletedJack, .attr ⟨"sn", false, [], ["Jack"]⟩)
    ∧ LdapNode.setattr (.ok []) deletedJack "sn" (.s "Jill")
        = .ok ⟨"cn=jack,dc=example,dc=com", false, [], false,
               some [("sn", ⟨"sn", true, [], ["Jill"]⟩)]⟩ := by
  refine ⟨rfl, ?_, ?_⟩ <;> rfl

/-- Claim C6 (amended, proved): delete() on success does nothing locally
but set the validity flag to false; the flag is never consulted
afterwards, so attribute reads and writes on the invalidated entry
proceed normally and raise no invalid-entry error. -/
theorem C6_delete_marks_invalid_only
    (deleteR : String → Except PyErr Unit)
    (fetchR : Except PyErr (List (String × List String)))
    (n : LdapNode) (m : List (String × LdapAttribute))
    (name : String) (value : PyStrOrList) (a : LdapAttribute)
    (hdel : deleteR n.dn = .ok ())
    (hattr : n.attr = some m)
    (hname : name.startsWith "is_" = false)
    (hlook : lookup_attr m name = some a) :
    LdapNode.delete deleteR n = .ok { n with valid := false }
    ∧ LdapNode.getattr fetchR { n with valid := false } name
        = .ok ({ n with valid := false }, .attr a)
    ∧ LdapNode.setattr fetchR { n with valid := false } name value
        = .ok { n with
                  valid := false
                  attr := some (update_attr m name (fun x => x.set_value value)) } := by
  refine ⟨?_, ?_, ?_⟩
  · simp [LdapNode.delete, hdel]
  · simp [LdapNode.getattr, ensure_attr, hattr, hname, hlook]
  · simp [LdapNode.setattr, ensure_attr, hattr, hlook]

/-- Witness for C6 (amended): the deleted node still answers reads and
writes on its `sn` attribute. -/
theorem C6_witness :
    (fun _ : String => (Except.ok () : Except PyErr Unit)) cleanNode.dn = .ok ()
    ∧ cleanNode.attr = some jackAttrs
    ∧ ("sn".startsWith "is_") = false
    ∧ lookup_attr jackAttrs "sn" = some ⟨"sn", false, [], ["Jack"]⟩
    ∧ (LdapNode.delete (fun _ => .ok ()) cleanNode = .ok { cleanNode with valid := false }
      ∧ LdapNode.getattr (.ok []) { cleanNode with valid := false } "sn"
          = .ok ({ cleanNode with valid := false }, .attr ⟨"sn", false, [], ["Jack"]⟩)
      ∧ LdapNode.setattr (.ok []) { cleanNode with valid := false } "sn" (.s "Jill")
          = .ok { cleanNode with
                    valid := false
                    attr := some (update_attr jackAttrs "sn"
                      (fun x => x.set_value (.s "Jill"))) }) :=
  ⟨rfl, rfl, rfl, rfl,
   C6_delete_marks_invalid_only (fun _ => .ok ()) (.ok []) cleanNode jackAttrs
     "sn" (.s "Jill") ⟨"sn", false, [], ["Jack"]⟩ rfl rfl rfl rfl⟩

/-! ### Claim C7 -/

/-- Claim C7 (confirmed): save() on a non-new entry whose attribute
dictionary was never fetched raises (the AttributeError coming from the
unset dictionary — the not-yet-fetched condition) and issues zero
network calls. -/
theorem C7_save_unfetched
    (addR : String → List (String × List String) → Except PyErr Unit)
    (modifyR : String → List PyVal → Except PyErr Unit)
    (n : LdapNode) (_hnew : n.new = false) (hattr : n.attr = none) :
    (n.save addR modifyR).result = .error .attributeError
    ∧ (n.save addR modifyR).calls = [] := by
  simp [LdapNode.save, hattr]

/-- Witness for C7: a freshly constructed non-new node saved before any
fetch. -/
theorem C7_witness :
    (LdapNode.init "cn=daniel,dc=example,dc=com" false).new = false
    ∧ (LdapNode.init "cn=daniel,dc=example,dc=com" false).attr = none
    ∧ (((LdapNode.init "cn=daniel,dc=example,dc=com" false).save addOkR modifyOkR).result
          = .error .attributeError
      ∧ ((LdapNode.init "cn=daniel,dc=example,dc=com" false).save addOkR modifyOkR).calls
          = []) :=
  ⟨rfl, rfl,
   C7_save_unfetched addOkR modifyOkR (LdapNode.init "cn=daniel,dc=example,dc=com" false)
     rfl rfl⟩

/-! ### Claim C9 -/

/-- Claim C9 (counterexample): deleting `loginShell` and then setting
`loginShell` again leaves the name both in the pending-deletion list and
in the attribute dictionary, violating the claimed invariant. -/
theorem C9_counterexample :
    LdapNode.delattr (.ok []) shellNode "loginShell" = .ok shellDelNode
    ∧ LdapNode.setattr (.ok []) shellDelNode "loginShell" (.s "/bin/zsh")
        = .ok shellSetNode
    ∧ "loginShell" ∈ shellSetNode.to_delete
    ∧ lookup_attr (shellSetNode.attr.getD []) "loginShell"
        = some (LdapAttribute.init "loginShell" (.s "/bin/zsh") true) := by
  refine ⟨rfl, rfl, ?_, rfl⟩
  simp [shellSetNode]

/-- Claim C9 (amended, proved): immediately after a deletion the name is
absent from the dictionary and present in the pending-deletion list, but
a subsequent set of the same name re-creates the dictionary entry while
the name remains in the pending-deletion list, so the invariant does not
survive a delete-then-set sequence. -/
theorem C9_delete_then_set
    (fetchR fetchR2 : Except PyErr (List (String × List String)))
    (n n1 : LdapNode) (m : List (String × LdapAttribute))
    (name : String) (value : PyStrOrList)
    (hattr : n.attr = some m)
    (hdel : LdapNode.delattr fetchR n name = .ok n1) :
    (lookup_attr (n1.attr.getD []) name = none ∧ name ∈ n1.to_delete)
    ∧ ∀ n2, LdapNode.setattr fetchR2 n1 name value = .ok n2 →
        lookup_attr (n2.attr.getD []) name
          = some (LdapAttribute.init name value true)
        ∧ name ∈ n2.to_delete := by
  cases hl : lookup_attr m name with
  | none =>
    rw [LdapNode.delattr, ensure_attr.eq_def, hattr] at hdel
    simp [hattr, hl] at hdel
  | some a =>
    rw [LdapNode.delattr, ensure_attr.eq_def, hattr] at hdel
    simp only [hattr, Option.getD_some, hl, Except.ok.injEq] at hdel
    subst hdel
    have hrm : lookup_attr (remove_attr m name) name = none :=
      lookup_attr_remove m name
    refine ⟨⟨by simpa using hrm, by simp⟩, ?_⟩
    intro n2 hset
    rw [LdapNode.setattr, ensure_attr.eq_def] at hset
    simp only [Option.getD_some, hrm, Except.ok.injEq] at hset
    subst hset
    refine ⟨?_, by simp⟩
    simpa using lookup_attr_append_last (remove_attr m name) name
      (LdapAttribute.init name value true) hrm

/-- Witness for C9 (amended): the shell delete-then-set sequence. -/
theorem C9_witness :
    shellNode.attr = some shellAttrs
    ∧ LdapNode.delattr (.ok []) shellNode "loginShell" = .ok shellDelNode
    ∧ (lookup_attr (shellDelNode.attr.getD []) "loginShell" = none
      ∧ "loginShell" ∈ shellDelNode.to_delete)
    ∧ (lookup_attr (shellSetNode.attr.getD []) "loginShell"
        = some (LdapAttribute.init "loginShell" (.s "/bin/zsh") true)
      ∧ "loginShell" ∈ shellSetNode.to_delete) :=
  ⟨rfl, rfl,
   (C9_delete_then_set (.ok []) (.ok []) shellNode shellDelNode shellAttrs
     "loginShell" (.s "/bin/zsh") rfl rfl).1,
   (C9_delete_then_set (.ok []) (.ok []) shellNode shellDelNode shellAttrs
     "loginShell" (.s "/bin/zsh") rfl rfl).2 shellSetNode rfl⟩

/-! ### Claim C10 -/

/-- Claim C10 (confirmed): save() on a brand-new entry with no attribute
ever set is not a no-op — it issues exactly one add call carrying an
empty attribute list; the empty-change-list short-circuit (zero network
calls) applies only on the non-new path. -/
theorem C10_new_empty_save
    (addR : String → List (String × List String) → Except PyErr Unit)
    (modifyR : String → List PyVal → Except PyErr Unit) (dn : String) :
    (LdapNode.save addR modifyR (LdapNode.init dn true)).calls
      = [.addCall dn []]
    ∧ ∀ (n : LdapNode) (m : List (String × LdapAttribute)),
        n.new = false → n.attr = some m →
        modify_change_list n.to_delete m = [] →
        (n.save addR modifyR).calls = [] := by
  constructor
  · cases h : addR dn [] <;> simp [LdapNode.save, LdapNode.init, h]
  · intro n m hnew hattr hcl
    simp [LdapNode.save, hattr, hnew, hcl]

/-- Witness for C10: a new entry with no attributes issues one add with
an empty list, while a clean non-new entry issues nothing. -/
theorem C10_witness :
    (LdapNode.save addOkR modifyOkR (LdapNode.init "cn=test,dc=example,dc=com" true)).calls
      = [.addCall "cn=test,dc=example,dc=com" []]
    ∧ (cleanNode.new = false
      ∧ cleanNode.attr = some jackAttrs
      ∧ modify_change_list cleanNode.to_delete jackAttrs = []
      ∧ (cleanNode.save addOkR modifyOkR).calls = []) :=
  ⟨(C10_new_empty_save addOkR modifyOkR "cn=test,dc=example,dc=com").1,
   rfl, rfl, rfl,
   (C10_new_empty_save addOkR modifyOkR "cn=test,dc=example,dc=com").2
     cleanNode jackAttrs rfl rfl rfl⟩

end Ldapom
